import Mathlib

/-!
Verification development for the Lunef voice-payment repository.

The development shallowly embeds the repository's Python code:

* `JVal` and `json_loads` model Python `json.loads` values and parsing
  (object/array/string/number/bool/null, duplicate keys resolved to the
  last binding, `NaN`/`Infinity` constants accepted, strict control-char
  rejection inside strings).  Known deviations, none of which any theorem
  relies on: parsed numbers keep their source lexeme instead of being
  re-rendered as Python floats, and lone `\u` surrogates (which Lean
  strings cannot represent) decode to U+FFFD.
* `Transport` models the outcome of one `httpx` call: a response with a
  status code and a raw body, a transport timeout, or another transport
  error.  URL construction and request headers do not influence any
  returned value, so they are absorbed into the transport oracle.
* Each tool adapter (`PaymentExecuteTool.execute`, `BalanceCheckTool.execute`,
  `TagResolverTool.execute`, `VideoGenerationTool.execute`) is translated
  branch by branch from `src/tools/*.py`; the return type
  `Except String String` distinguishes a returned JSON string (`Except.ok`)
  from a Python exception escaping the function (`Except.error`, carrying
  the exception class name).
* `PaymentAgent` with `process_voice_input`, `check_confirmation`,
  `extract_preview_id` and `execute_pending_payment` is translated from
  `src/agents/payment/payment_agent.py`.  The upstream LLM call
  `self.run(...)` is an external collaborator and is passed in as the
  string it returns.
-/

/-! ## Python string primitives -/

/-- Characters stripped by Python `str.strip()` (the ASCII whitespace set). -/
def pyWsChar (c : Char) : Bool :=
  c == ' ' || c == '\t' || c == '\n' || c == '\r' || c == '\x0b' || c == '\x0c'

/-- Python `str.lower()` on one character (ASCII range, as used by the code). -/
def pyLowerChar (c : Char) : Char :=
  if 'A' ≤ c && c ≤ 'Z' then Char.ofNat (c.toNat + 32) else c

/-- Python `str.lower()`. -/
def pyLower (s : String) : String :=
  String.mk (s.data.map pyLowerChar)

/-- Python `str.strip()` with no arguments. -/
def pyStrip (s : String) : String :=
  String.mk (((s.data.dropWhile pyWsChar).reverse.dropWhile pyWsChar).reverse)

/-- `needle` is a prefix of `hay`. -/
def prefixChars : List Char → List Char → Bool
  | [], _ => true
  | _ :: _, [] => false
  | a :: as, b :: bs => a == b && prefixChars as bs

/-- `needle` occurs as a contiguous substring of `hay`. -/
def subChars (needle : List Char) : List Char → Bool
  | [] => prefixChars needle []
  | c :: t => prefixChars needle (c :: t) || subChars needle t

/-- Python `needle in hay` on strings. -/
def pyContains (needle hay : String) : Bool :=
  subChars needle.data hay.data

/-! ## Python JSON values -/

/-- A parsed Python JSON value (result of `json.loads`).  Numbers keep their
source lexeme. -/
inductive JVal where
  | jnull : JVal
  | jbool : Bool → JVal
  | jnum : String → JVal
  | jstr : String → JVal
  | jarr : List JVal → JVal
  | jobj : List (String × JVal) → JVal
deriving Repr

/-- Whether a JSON number lexeme denotes zero (all mantissa digits `0`). -/
def numIsZero (raw : String) : Bool :=
  (((raw.data.dropWhile (· == '-')).takeWhile
      (fun c => !(c == 'e') && !(c == 'E'))).filter (fun c => !(c == '.'))).all
    (· == '0')

/-- Python truthiness of a JSON value. -/
def jvalTruthy : JVal → Bool
  | .jnull => false
  | .jbool b => b
  | .jnum raw => !(numIsZero raw)
  | .jstr s => !s.data.isEmpty
  | .jarr xs => !xs.isEmpty
  | .jobj fs => !fs.isEmpty

/-- Python truthiness of an optional value (`none` is Python `None`). -/
def pyTruthy : Option JVal → Bool
  | none => false
  | some v => jvalTruthy v

/-- Last binding of key `k` in a parsed object (Python dicts keep the last
duplicate key from `json.loads`); `none` when the key is absent. -/
def findField (fs : List (String × JVal)) (k : String) : Option JVal :=
  (fs.reverse.find? (fun kv => kv.1 == k)).map (·.2)

/-- Python `data.get(k)`: `None` both when the key is absent and when the
stored value is JSON `null`. -/
def pyGet (fs : List (String × JVal)) (k : String) : Option JVal :=
  match findField fs k with
  | none => none
  | some .jnull => none
  | some v => some v

/-- Python `data.get(k, d)` for a non-`None` default `d`. -/
def pyGetD (fs : List (String × JVal)) (k : String) (d : JVal) : Option JVal :=
  match findField fs k with
  | none => some d
  | some .jnull => none
  | some v => some v

/-! ## JSON parsing (`json.loads`) -/

/-- JSON structural whitespace. -/
def jsonWs (c : Char) : Bool :=
  c == ' ' || c == '\t' || c == '\n' || c == '\r'

/-- Hex digit value of a character, if any. -/
def hexVal (c : Char) : Option Nat :=
  if '0' ≤ c && c ≤ '9' then some (c.toNat - 48)
  else if 'a' ≤ c && c ≤ 'f' then some (c.toNat - 87)
  else if 'A' ≤ c && c ≤ 'F' then some (c.toNat - 55)
  else none

/-- Four hex digits to their value. -/
def hex4 (a b c d : Char) : Option Nat := do
  let va ← hexVal a
  let vb ← hexVal b
  let vc ← hexVal c
  let vd ← hexVal d
  pure (va * 4096 + vb * 256 + vc * 16 + vd)

/-- A scalar code point as a `Char`; code points Lean cannot represent
(lone surrogates) become U+FFFD. -/
def charOfCode (n : Nat) : Char :=
  if n < 0xd800 ∨ (0xdfff < n ∧ n < 0x110000) then Char.ofNat n else '�'

/-- Body of a JSON string literal after the opening quote: returns the decoded
string and the input after the closing quote.  Strict mode: raw control
characters and unknown escapes are errors. -/
def parseStringBody : Nat → List Char → List Char → Option (String × List Char)
  | 0, _, _ => none
  | _ + 1, acc, '"' :: rest => some (String.mk acc.reverse, rest)
  | fuel + 1, acc, '\\' :: '"' :: rest => parseStringBody fuel ('"' :: acc) rest
  | fuel + 1, acc, '\\' :: '\\' :: rest => parseStringBody fuel ('\\' :: acc) rest
  | fuel + 1, acc, '\\' :: '/' :: rest => parseStringBody fuel ('/' :: acc) rest
  | fuel + 1, acc, '\\' :: 'b' :: rest => parseStringBody fuel ('\x08' :: acc) rest
  | fuel + 1, acc, '\\' :: 'f' :: rest => parseStringBody fuel ('\x0c' :: acc) rest
  | fuel + 1, acc, '\\' :: 'n' :: rest => parseStringBody fuel ('\n' :: acc) rest
  | fuel + 1, acc, '\\' :: 'r' :: rest => parseStringBody fuel ('\r' :: acc) rest
  | fuel + 1, acc, '\\' :: 't' :: rest => parseStringBody fuel ('\t' :: acc) rest
  | fuel + 1, acc, '\\' :: 'u' :: a :: b :: c :: d :: rest =>
    match hex4 a b c d with
    | none => none
    | some n =>
      if 0xd800 ≤ n && n ≤ 0xdbff then
        match rest with
        | '\\' :: 'u' :: a2 :: b2 :: c2 :: d2 :: rest2 =>
          match hex4 a2 b2 c2 d2 with
          | some m =>
            if 0xdc00 ≤ m && m ≤ 0xdfff then
              parseStringBody fuel
                (charOfCode (0x10000 + (n - 0xd800) * 0x400 + (m - 0xdc00)) :: acc) rest2
            else parseStringBody fuel (charOfCode n :: acc) ('\\' :: 'u' :: a2 :: b2 :: c2 :: d2 :: rest2)
          | none => parseStringBody fuel (charOfCode n :: acc) ('\\' :: 'u' :: a2 :: b2 :: c2 :: d2 :: rest2)
        | _ => parseStringBody fuel (charOfCode n :: acc) rest
      else parseStringBody fuel (charOfCode n :: acc) rest
  | _ + 1, _, '\\' :: _ => none
  | fuel + 1, acc, c :: rest =>
    if c.toNat < 0x20 then none else parseStringBody fuel (c :: acc) rest
  | _ + 1, _, [] => none

/-- Digit run splitter. -/
def digitSpan (cs : List Char) : List Char × List Char :=
  (cs.takeWhile (fun c => c.isDigit), cs.dropWhile (fun c => c.isDigit))

/-- JSON number lexeme starting at the input, per the JSON grammar
(`-?(0|[1-9][0-9]*)(\.[0-9]+)?([eE][+-]?[0-9]+)?`). -/
def parseNumber (cs : List Char) : Option (String × List Char) :=
  let (sign, cs1) :=
    match cs with
    | '-' :: rest => (['-'], rest)
    | _ => (([] : List Char), cs)
  match cs1 with
  | '0' :: rest => parseFrac (sign ++ ['0']) rest
  | c :: _ =>
    if c.isDigit then
      let (ds, rest) := digitSpan cs1
      parseFrac (sign ++ ds) rest
    else none
  | [] => none
where
  parseFrac (intPart : List Char) (cs : List Char) : Option (String × List Char) :=
    match cs with
    | '.' :: rest =>
      let (ds, rest2) := digitSpan rest
      if ds.isEmpty then none
      else parseExp (intPart ++ '.' :: ds) rest2
    | _ => parseExp intPart cs
  parseExp (mant : List Char) (cs : List Char) : Option (String × List Char) :=
    match cs with
    | e :: rest =>
      if e == 'e' || e == 'E' then
        let (sgn, rest2) :=
          match rest with
          | '+' :: r => (['+'], r)
          | '-' :: r => (['-'], r)
          | _ => (([] : List Char), rest)
        let (ds, rest3) := digitSpan rest2
        if ds.isEmpty then none
        else some (String.mk (mant ++ e :: sgn ++ ds), rest3)
      else some (String.mk mant, cs)
    | [] => some (String.mk mant, [])

mutual

/-- One JSON value at the head of the input (leading whitespace allowed),
as accepted by Python `json.loads` (including its `NaN` / `Infinity`
constants). -/
def parseValue : Nat → List Char → Option (JVal × List Char)
  | 0, _ => none
  | fuel + 1, cs =>
    let cs := cs.dropWhile jsonWs
    match cs with
    | '"' :: rest =>
      match parseStringBody (rest.length + 1) [] rest with
      | some (s, rest2) => some (.jstr s, rest2)
      | none => none
    | '\x7b' :: rest => parseObjBody fuel rest
    | '[' :: rest => parseArrBody fuel rest
    | 't' :: 'r' :: 'u' :: 'e' :: rest => some (.jbool true, rest)
    | 'f' :: 'a' :: 'l' :: 's' :: 'e' :: rest => some (.jbool false, rest)
    | 'n' :: 'u' :: 'l' :: 'l' :: rest => some (.jnull, rest)
    | 'N' :: 'a' :: 'N' :: rest => some (.jnum "NaN", rest)
    | 'I' :: 'n' :: 'f' :: 'i' :: 'n' :: 'i' :: 't' :: 'y' :: rest =>
      some (.jnum "Infinity", rest)
    | '-' :: 'I' :: 'n' :: 'f' :: 'i' :: 'n' :: 'i' :: 't' :: 'y' :: rest =>
      some (.jnum "-Infinity", rest)
    | other =>
      match parseNumber other with
      | some (raw, rest) => some (.jnum raw, rest)
      | none => none
termination_by structural fuel _ => fuel

/-- Object body after `\x7b`. -/
def parseObjBody : Nat → List Char → Option (JVal × List Char)
  | 0, _ => none
  | fuel + 1, cs =>
    let cs := cs.dropWhile jsonWs
    match cs with
    | '\x7d' :: rest => some (.jobj [], rest)
    | _ => parseMembers fuel cs []
termination_by structural fuel _ => fuel

/-- Comma-separated `"key": value` members, ending at `\x7d`. -/
def parseMembers : Nat → List Char → List (String × JVal) → Option (JVal × List Char)
  | 0, _, _ => none
  | fuel + 1, cs, acc =>
    let cs := cs.dropWhile jsonWs
    match cs with
    | '"' :: rest =>
      match parseStringBody (rest.length + 1) [] rest with
      | none => none
      | some (k, rest2) =>
        let rest3 := rest2.dropWhile jsonWs
        match rest3 with
        | ':' :: rest4 =>
          match parseValue fuel rest4 with
          | none => none
          | some (v, rest5) =>
            let rest6 := rest5.dropWhile jsonWs
            match rest6 with
            | ',' :: rest7 => parseMembers fuel rest7 (acc ++ [(k, v)])
            | '\x7d' :: rest7 => some (.jobj (acc ++ [(k, v)]), rest7)
            | _ => none
        | _ => none
    | _ => none
termination_by structural fuel _ _ => fuel

/-- Array body after `[`. -/
def parseArrBody : Nat → List Char → Option (JVal × List Char)
  | 0, _ => none
  | fuel + 1, cs =>
    let cs := cs.dropWhile jsonWs
    match cs with
    | ']' :: rest => some (.jarr [], rest)
    | _ => parseItems fuel cs []
termination_by structural fuel _ => fuel

/-- Comma-separated array items, ending at `]`. -/
def parseItems : Nat → List Char → List JVal → Option (JVal × List Char)
  | 0, _, _ => none
  | fuel + 1, cs, acc =>
    match parseValue fuel cs with
    | none => none
    | some (v, rest) =>
      let rest2 := rest.dropWhile jsonWs
      match rest2 with
      | ',' :: rest3 => parseItems fuel rest3 (acc ++ [v])
      | ']' :: rest3 => some (.jarr (acc ++ [v]), rest3)
      | _ => none
termination_by structural fuel _ _ => fuel

end

/-- Python `json.loads`: one JSON document with only whitespace around it.
The fuel `3 * length + 3` strictly dominates the recursion depth of any
parse (each three successive recursive calls consume at least one input
character), so the fuel never runs out on any input. -/
def json_loads (s : String) : Option JVal :=
  match parseValue (3 * s.data.length + 3) s.data with
  | none => none
  | some (v, rest) =>
    if (rest.dropWhile jsonWs).isEmpty then some v else none

/-! ## JSON serialization (`json.dumps`) and Python `str()` -/

/-- Lowercase hex digit. -/
def hexDigitChar (n : Nat) : Char :=
  if n < 10 then Char.ofNat (48 + n) else Char.ofNat (87 + n % 16)

/-- `\uXXXX` escape for one code unit. -/
def uEscape (n : Nat) : List Char :=
  ['\\', 'u', hexDigitChar ((n / 4096) % 16), hexDigitChar ((n / 256) % 16),
   hexDigitChar ((n / 16) % 16), hexDigitChar (n % 16)]

/-- `json.dumps` escaping of one character (default `ensure_ascii=True`:
non-ASCII becomes `\uXXXX`, astral code points a surrogate pair). -/
def jsonEscapeChar (c : Char) : List Char :=
  if c == '"' then ['\\', '"']
  else if c == '\\' then ['\\', '\\']
  else if c == '\n' then ['\\', 'n']
  else if c == '\t' then ['\\', 't']
  else if c == '\r' then ['\\', 'r']
  else if c == '\x08' then ['\\', 'b']
  else if c == '\x0c' then ['\\', 'f']
  else if c.toNat < 0x20 || 0x7e < c.toNat then
    if c.toNat < 0x10000 then uEscape c.toNat
    else
      uEscape (0xd800 + (c.toNat - 0x10000) / 0x400) ++
        uEscape (0xdc00 + (c.toNat - 0x10000) % 0x400)
  else [c]

/-- `json.dumps` of a string. -/
def dumpStr (s : String) : String :=
  String.mk ('"' :: s.data.foldr (fun c acc => jsonEscapeChar c ++ acc) ['"'])

mutual

/-- `json.dumps` of a value, with the default separators `", "` and `": "`.
Numbers are emitted as their stored lexeme. -/
def dumpJVal : JVal → String
  | .jnull => "null"
  | .jbool true => "true"
  | .jbool false => "false"
  | .jnum raw => raw
  | .jstr s => dumpStr s
  | .jarr xs => "[" ++ dumpArr xs ++ "]"
  | .jobj fs => "\x7b" ++ dumpFields fs ++ "\x7d"

/-- Comma-separated dumped array items. -/
def dumpArr : List JVal → String
  | [] => ""
  | [x] => dumpJVal x
  | x :: y :: rest => dumpJVal x ++ ", " ++ dumpArr (y :: rest)

/-- Comma-separated dumped object members. -/
def dumpFields : List (String × JVal) → String
  | [] => ""
  | [(k, v)] => dumpStr k ++ ": " ++ dumpJVal v
  | (k, v) :: f :: rest => dumpStr k ++ ": " ++ dumpJVal v ++ ", " ++ dumpFields (f :: rest)

end

/-- `json.dumps` of a Python value that may be `None`. -/
def dumpPy : Option JVal → String
  | none => "null"
  | some v => dumpJVal v

mutual

/-- Python `str()` of a JSON value (as interpolated by f-strings).  Strings
appear bare; containers use `repr` of their elements. -/
def pyStr : JVal → String
  | .jnull => "None"
  | .jbool true => "True"
  | .jbool false => "False"
  | .jnum raw => raw
  | .jstr s => s
  | .jarr xs => "[" ++ pyReprList xs ++ "]"
  | .jobj fs => "\x7b" ++ pyReprFields fs ++ "\x7d"

/-- Python `repr()` of a JSON value (strings single-quoted). -/
def pyRepr : JVal → String
  | .jnull => "None"
  | .jbool true => "True"
  | .jbool false => "False"
  | .jnum raw => raw
  | .jstr s => "\x27" ++ s ++ "\x27"
  | .jarr xs => "[" ++ pyReprList xs ++ "]"
  | .jobj fs => "\x7b" ++ pyReprFields fs ++ "\x7d"

/-- Comma-separated `repr`s of list items. -/
def pyReprList : List JVal → String
  | [] => ""
  | [x] => pyRepr x
  | x :: y :: rest => pyRepr x ++ ", " ++ pyReprList (y :: rest)

/-- Comma-separated `repr`s of dict items. -/
def pyReprFields : List (String × JVal) → String
  | [] => ""
  | [(k, v)] => "\x27" ++ k ++ "\x27: " ++ pyRepr v
  | (k, v) :: f :: rest =>
    "\x27" ++ k ++ "\x27: " ++ pyRepr v ++ ", " ++ pyReprFields (f :: rest)

end

/-- Python `str()` of a possibly-`None` value. -/
def pyStrOpt : Option JVal → String
  | none => "None"
  | some v => pyStr v

/-- f-string interpolation of `data.get(k, d)`. -/
def pyStrGetD (fs : List (String × JVal)) (k : String) (d : JVal) : String :=
  match findField fs k with
  | none => pyStr d
  | some v => pyStr v

/-! ## Regex scans used by `_extract_preview_id` -/

/-- Hex digit under `re.IGNORECASE` for the pattern class `[0-9a-f]`. -/
def uuidHexChar (c : Char) : Bool :=
  ('0' ≤ c && c ≤ '9') || ('a' ≤ c && c ≤ 'f') || ('A' ≤ c && c ≤ 'F')

/-- Whether the first 36 characters of the input match the UUID pattern
`[0-9a-f]\x7b8\x7d-[0-9a-f]\x7b4\x7d-[0-9a-f]\x7b4\x7d-[0-9a-f]\x7b4\x7d-[0-9a-f]\x7b12\x7d`
(case-insensitively). -/
def uuidAt (cs : List Char) : Bool :=
  cs.length ≥ 36 &&
    (List.range 36).all (fun i =>
      if i == 8 || i == 13 || i == 18 || i == 23 then cs.getD i ' ' == '-'
      else uuidHexChar (cs.getD i ' '))

/-- `re.search` for the UUID pattern: the leftmost 36-character window that
matches, if any. -/
def uuidSearch : List Char → Option String
  | [] => none
  | c :: rest =>
    if uuidAt (c :: rest) then some (String.mk ((c :: rest).take 36))
    else uuidSearch rest

/-- `re.search(r'\x7b[^\x7d]+\x7d', s)`: the leftmost brace-delimited fragment
with at least one character between the braces. -/
def fragSearch : List Char → Option (List Char)
  | [] => none
  | '\x7b' :: rest =>
    let content := rest.takeWhile (fun c => !(c == '\x7d'))
    if 0 < content.length && content.length < rest.length then
      some ('\x7b' :: content ++ ['\x7d'])
    else fragSearch rest
  | _ :: rest => fragSearch rest

/-! ## Tool adapters

`Transport` is the outcome of the one outbound `httpx` call an adapter makes.
Each adapter returns `Except.ok` with exactly the string the Python function
returns, or `Except.error` with the class name of the Python exception that
escapes it (only `httpx.TimeoutException` and `httpx.RequestError` are caught
in the source, so e.g. `response.json()` failing on a 2xx body raises). -/

/-- Outcome of a single HTTP call. -/
inductive Transport where
  | httpResponse : Nat → String → Transport
  | timedOut : Transport
  | requestError : String → Transport

/-- Python slicing `v[:16]` is defined for strings and lists only. -/
def sliceable : Option JVal → Bool
  | some (.jstr _) => true
  | some (.jarr _) => true
  | _ => false

/-- Python `v[:16]` rendered by `str()` (guarded by `sliceable`). -/
def sliceStr16 : Option JVal → String
  | some (.jstr s) => String.mk (s.data.take 16)
  | some (.jarr xs) => pyStr (.jarr (xs.take 16))
  | _ => ""

/-- The `confirmation_message` f-string of the execute tool's 200 branch. -/
def execConfMsg (fs : List (String × JVal)) : String :=
  "Payment sent successfully! " ++ pyStrOpt (pyGet fs "amount_gas") ++
    " GAS has been sent to " ++ pyStrOpt (pyGet fs "to_tag") ++
    ". Transaction: " ++ sliceStr16 (pyGet fs "tx_hash") ++ "..."

/-- The `json.dumps` payload of the execute tool's 200 branch. -/
def execSuccessJson (fs : List (String × JVal)) : String :=
  "\x7b\"success\": true, \"tx_hash\": " ++ dumpPy (pyGet fs "tx_hash") ++
    ", \"explorer_url\": " ++ dumpPy (pyGet fs "explorer_url") ++
    ", \"amount_gas\": " ++ dumpPy (pyGet fs "amount_gas") ++
    ", \"to_tag\": " ++ dumpPy (pyGet fs "to_tag") ++
    ", \"status\": " ++ dumpPy (pyGetD fs "status" (.jstr "confirmed")) ++
    ", \"confirmation_message\": " ++ dumpStr (execConfMsg fs) ++ "\x7d"

/-- `PaymentExecuteTool.execute` from `src/tools/payment_execute.py`.
`user_id` and `preview_id` only shape the request URL and header, never the
returned value. -/
def PaymentExecuteTool.execute (user_id preview_id : String) (t : Transport) :
    Except String String :=
  match t with
  | .httpResponse status body =>
    if status == 200 then
      match json_loads body with
      | some (.jobj fs) =>
        match findField fs "tx_hash" with
        | none =>
          .error "TypeError"
        | some .jnull =>
          .error "TypeError"
        | some v =>
          if sliceable (some v) then .ok (execSuccessJson fs)
          else .error "TypeError"
      | some _ => .error "AttributeError"
      | none => .error "JSONDecodeError"
    else if status == 404 then
      .ok "\x7b\"error\": \"Payment preview expired or not found. Please start a new payment.\"\x7d"
    else if status == 403 then
      .ok "\x7b\"error\": \"Insufficient balance or payment not confirmed\"\x7d"
    else if status == 409 then
      .ok "\x7b\"error\": \"Payment already executed\"\x7d"
    else
      .ok ("\x7b\"error\": \"Payment failed: " ++ toString status ++ "\"\x7d")
  | .timedOut =>
    .ok ("\x7b\"warning\": \"Transaction may still be processing\", " ++
      "\"message\": \"The payment was submitted but confirmation timed out. " ++
      "Please check your transaction history.\"\x7d")
  | .requestError e =>
    .ok ("\x7b\"error\": \"Network error: " ++ e ++ "\"\x7d")

/-- `BalanceCheckTool.execute` from `src/tools/balance_check.py`. -/
def BalanceCheckTool.execute (user_id : String) (t : Transport) :
    Except String String :=
  match t with
  | .httpResponse status body =>
    if status == 200 then
      match json_loads body with
      | some (.jobj fs) =>
        .ok ("\x7b\"gas_balance\": \"" ++ pyStrGetD fs "gas_balance" (.jstr "0") ++
          "\", \"fiat_equivalent\": " ++ pyStrGetD fs "fiat_equivalent" (.jnum "0") ++
          ", \"fiat_currency\": \"" ++ pyStrGetD fs "fiat_currency" (.jstr "USD") ++
          "\", \"address\": \"" ++ pyStrGetD fs "address" (.jstr "") ++ "\"\x7d")
      | some _ => .error "AttributeError"
      | none => .error "JSONDecodeError"
    else if status == 404 then
      .ok "\x7b\"error\": \"Wallet not found. Please create a wallet first.\"\x7d"
    else
      .ok ("\x7b\"error\": \"Failed to check balance: " ++ toString status ++ "\"\x7d")
  | .timedOut =>
    .ok "\x7b\"error\": \"Balance check timed out. The blockchain may be slow.\"\x7d"
  | .requestError e =>
    .ok ("\x7b\"error\": \"Network error: " ++ e ++ "\"\x7d")

/-- The tag normalization of `TagResolverTool.execute`:
`tag.lstrip("@").lower().strip()`. -/
def TagResolverTool.clean_tag (tag : String) : String :=
  pyStrip (pyLower (String.mk (tag.data.dropWhile (· == '@'))))

/-- The backend path a tag resolution queries, `none` when the empty-tag
validation fails before the network call. -/
def TagResolverTool.requestPath (tag : String) : Option String :=
  if (TagResolverTool.clean_tag tag).data.isEmpty then none
  else some ("/api/v1/users/tag/" ++ TagResolverTool.clean_tag tag)

/-- `TagResolverTool.execute` from `src/tools/tag_resolver.py`. -/
def TagResolverTool.execute (tag : String) (t : Transport) :
    Except String String :=
  let clean := TagResolverTool.clean_tag tag
  if clean.data.isEmpty then .ok "\x7b\"error\": \"Empty tag provided\"\x7d"
  else
    match t with
    | .httpResponse status body =>
      if status == 200 then
        match json_loads body with
        | some (.jobj fs) =>
          .ok ("\x7b\"tag\": \"@" ++ clean ++ "\", \"address\": \"" ++
            pyStrGetD fs "wallet_address" (.jstr "") ++
            "\", \"display_name\": \"" ++
            pyStrGetD fs "display_name" (.jstr clean) ++ "\"\x7d")
        | some _ => .error "AttributeError"
        | none => .error "JSONDecodeError"
      else if status == 404 then
        .ok ("\x7b\"error\": \"Tag @" ++ clean ++
          " not found. Please check the spelling.\"\x7d")
      else
        .ok ("\x7b\"error\": \"Failed to resolve tag: " ++ toString status ++ "\"\x7d")
    | .timedOut =>
      .ok "\x7b\"error\": \"Request timed out. Please try again.\"\x7d"
    | .requestError e =>
      .ok ("\x7b\"error\": \"Network error: " ++ e ++ "\"\x7d")

/-- `VideoGenerationTool.execute` from `src/tools/video_generation.py`.
`cost_repr` stands for the decimal rendering of the Python float
`cost_per_second_usdc * duration_seconds` (float formatting is not modelled;
no claim depends on it). -/
def VideoGenerationTool.execute (user_id prompt : String) (duration_seconds : Int)
    (style : String) (cost_repr : String) (t : Transport) :
    Except String String :=
  let duration := max 5 (min 30 duration_seconds)
  match t with
  | .httpResponse status body =>
    if status == 200 then
      match json_loads body with
      | some (.jobj fs) =>
        .ok ("\x7b\"success\": true, \"video_url\": " ++ dumpPy (pyGet fs "video_url") ++
          ", \"thumbnail_url\": " ++ dumpPy (pyGet fs "thumbnail_url") ++
          ", \"duration_seconds\": " ++ toString duration ++
          ", \"style\": " ++ dumpStr style ++
          ", \"cost_gas\": " ++ dumpPy (pyGet fs "cost_gas") ++
          ", \"cost_usdc\": " ++ cost_repr ++
          ", \"purchase_id\": " ++ dumpPy (pyGet fs "purchase_id") ++
          ", \"status\": \"ready\", \"message\": " ++
          dumpStr ("Video generated successfully! Duration: " ++ toString duration ++
            "s, Style: " ++ style ++ ". Cost: " ++ pyStrGetD fs "cost_gas" (.jstr "?") ++
            " GAS.") ++ "\x7d")
      | some _ => .error "AttributeError"
      | none => .error "JSONDecodeError"
    else if status == 402 then
      .ok ("\x7b\"error\": \"Payment required\", \"cost_usdc\": " ++ cost_repr ++
        ", \"message\": \"Video generation requires payment. " ++
        "Please ensure you have sufficient balance.\"\x7d")
    else if status == 403 then
      .ok "\x7b\"error\": \"Insufficient GAS balance for video generation\"\x7d"
    else if status == 429 then
      .ok "\x7b\"error\": \"Rate limited. Please try again in a few minutes.\"\x7d"
    else
      .ok ("\x7b\"error\": \"Video generation failed: " ++ toString status ++ "\"\x7d")
  | .timedOut =>
    .ok ("\x7b\"status\": \"processing\", \"message\": \"Video generation is " ++
      "taking longer than expected. It will be ready soon - check your " ++
      "content library.\"\x7d")
  | .requestError e =>
    .ok ("\x7b\"error\": \"Network error: " ++ e ++ "\"\x7d")

/-! ## The payment agent session

`PaymentAgent` holds the per-conversation state of
`src/agents/payment/payment_agent.py`: the caller identity and the pending
preview id (`None` or the value stored by `process_voice_input`).  The
upstream `self.run(...)` call is an external LLM collaborator; its textual
response is an input here.  A `Step` records the state after one
`process_voice_input` call, its outcome (`Except.error` when a Python
exception escapes the call), and whether the `execute_payment` adapter was
invoked during the call. -/

/-- Session state of the agent. -/
structure PaymentAgent where
  user_id : String
  pending_preview_id : Option JVal
deriving Repr

/-- Result of `_check_confirmation`. -/
inductive Confirmation where
  | confirmed : Confirmation
  | cancelled : Confirmation
  | unclear : Confirmation
deriving DecidableEq, Repr

/-- The confirm-phrase list of `_check_confirmation`. -/
def confirm_phrases : List String :=
  ["yes", "yeah", "yep", "yup", "confirm", "confirmed",
   "do it", "send it", "go ahead", "proceed", "approve",
   "that\x27s right", "correct", "ok", "okay", "sure"]

/-- The cancel-phrase list of `_check_confirmation`. -/
def cancel_phrases : List String :=
  ["no", "nope", "cancel", "stop", "wait", "don\x27t",
   "abort", "nevermind", "never mind", "hold on"]

/-- `PaymentAgent._check_confirmation`: lower-case and strip the transcript,
scan the confirm phrases first (substring containment), then the cancel
phrases; no match is `unclear`. -/
def PaymentAgent.check_confirmation (transcript : String) : Confirmation :=
  let transcript_lower := pyStrip (pyLower transcript)
  if confirm_phrases.any (fun p => pyContains p transcript_lower) then .confirmed
  else if cancel_phrases.any (fun p => pyContains p transcript_lower) then .cancelled
  else .unclear

/-- `PaymentAgent._extract_preview_id`: first a case-insensitive UUID-pattern
search, then—if the response contains a brace—`json.loads` on the first
`\x7b[^\x7d]+\x7d` fragment and `data.get("preview_id")`; a parse failure is
swallowed (`None`). -/
def PaymentAgent.extract_preview_id (response : String) : Option JVal :=
  match uuidSearch response.data with
  | some u => some (.jstr u)
  | none =>
    if response.data.contains '\x7b' then
      match fragSearch response.data with
      | some frag =>
        match json_loads (String.mk frag) with
        | some (.jobj fs) => pyGet fs "preview_id"
        | some _ => none
        | none => none
      | none => none
    else none

/-- The `data` payload of a `process_voice_input` result dictionary. -/
inductive RData where
  | previewD : Option JVal → RData
  | payD : Option JVal → Option JVal → RData
  | rawD : List (String × JVal) → RData
deriving Repr

/-- One result dictionary of `process_voice_input` (`data` is absent in the
branches that do not set it). -/
structure VoiceResult where
  response : Option JVal
  action : String
  data : Option RData
deriving Repr

/-- State, outcome and adapter usage of one `process_voice_input` call. -/
structure Step where
  agent : PaymentAgent
  outcome : Except String VoiceResult
  executed : Bool
deriving Repr

/-- `PaymentAgent._execute_pending_payment`: guard on a truthy pending id,
call the execute tool, clear the pending id, then `json.loads` the tool's
string; only `json.JSONDecodeError` is caught. -/
def PaymentAgent.execute_pending_payment (a : PaymentAgent) (t : Transport) : Step :=
  if pyTruthy a.pending_preview_id = false then
    ⟨a, .ok ⟨some (.jstr "No pending payment to execute."), "error", none⟩, false⟩
  else
    match PaymentExecuteTool.execute a.user_id (pyStrOpt a.pending_preview_id) t with
    | .error e => ⟨a, .error e, true⟩
    | .ok result_str =>
      let a2 : PaymentAgent := { a with pending_preview_id := none }
      match json_loads result_str with
      | some (.jobj fs) =>
        if pyTruthy (pyGet fs "success") then
          ⟨a2, .ok ⟨pyGetD fs "confirmation_message" (.jstr "Payment sent successfully!"),
            "confirmed", some (.payD (pyGet fs "tx_hash") (pyGet fs "explorer_url"))⟩, true⟩
        else
          ⟨a2, .ok ⟨some (.jstr ("Payment failed: " ++ pyStrGetD fs "error" (.jstr "Unknown error"))),
            "error", some (.rawD fs)⟩, true⟩
      | some _ => ⟨a2, .error "AttributeError", true⟩
      | none =>
        ⟨a2, .ok ⟨some (.jstr "Payment status unclear. Please check your transaction history."),
          "error", none⟩, true⟩

/-- `PaymentAgent.process_voice_input`.  `transcript` is the caller's
utterance; `upstream` is the text the external agent framework returns from
`self.run(...)` in the new-intent branch; `t` is the transport outcome of
the execute call, consumed only when the confirmed branch reaches the
adapter. -/
def PaymentAgent.process_voice_input (a : PaymentAgent) (transcript upstream : String)
    (t : Transport) : Step :=
  if pyTruthy a.pending_preview_id then
    match PaymentAgent.check_confirmation transcript with
    | .confirmed => a.execute_pending_payment t
    | .cancelled =>
      ⟨{ a with pending_preview_id := none },
        .ok ⟨some (.jstr "Payment cancelled. Is there anything else I can help you with?"),
          "cancelled", none⟩, false⟩
    | .unclear =>
      ⟨a, .ok ⟨some (.jstr ("I didn\x27t catch that. Please say \x27yes\x27 to confirm " ++
          "the payment or \x27no\x27 to cancel.")), "awaiting_confirmation", none⟩, false⟩
  else
    let response := upstream
    if pyContains "awaiting_confirmation" (pyLower response) ||
        pyContains "confirm" (pyLower response) then
      let preview_id := PaymentAgent.extract_preview_id response
      let a2 : PaymentAgent :=
        if pyTruthy preview_id then { a with pending_preview_id := preview_id } else a
      ⟨a2, .ok ⟨some (.jstr response), "preview", some (.previewD preview_id)⟩, false⟩
    else
      ⟨a, .ok ⟨some (.jstr response), "info", none⟩, false⟩

/-! ## Shared lemmas -/

/-- With no truthy pending preview, `process_voice_input` takes the
new-intent branch and never invokes the execute adapter. -/
theorem idle_never_executes (a : PaymentAgent) (u up : String) (t : Transport)
    (hidle : pyTruthy a.pending_preview_id = false) :
    (a.process_voice_input u up t).executed = false := by
  unfold PaymentAgent.process_voice_input
  rw [hidle]
  simp only [Bool.false_eq_true, if_false]
  split <;> rfl

/-- In the confirmed branch, `process_voice_input` defers to
`_execute_pending_payment`. -/
theorem pvi_confirmed_eq (a : PaymentAgent) (u up : String) (t : Transport)
    (hpend : pyTruthy a.pending_preview_id = true)
    (hconf : PaymentAgent.check_confirmation u = .confirmed) :
    a.process_voice_input u up t = a.execute_pending_payment t := by
  unfold PaymentAgent.process_voice_input
  rw [hpend, hconf]
  rfl

/-- Whenever the execute adapter returns a string, `_execute_pending_payment`
clears the pending preview id and reports that the adapter was invoked. -/
theorem execute_pending_clears (a : PaymentAgent) (t : Transport) (s : String)
    (hpend : pyTruthy a.pending_preview_id = true)
    (hres : PaymentExecuteTool.execute a.user_id (pyStrOpt a.pending_preview_id) t
      = .ok s) :
    (a.execute_pending_payment t).agent.pending_preview_id = none ∧
      (a.execute_pending_payment t).executed = true := by
  unfold PaymentAgent.execute_pending_payment
  rw [hpend, hres]
  simp only [Bool.true_eq_false, if_false]
  split
  · split <;> exact ⟨rfl, rfl⟩
  · exact ⟨rfl, rfl⟩
  · exact ⟨rfl, rfl⟩

/-! ## Claims -/

/-- Claim C1, counterexample.  With preview `"p"` pending and a confirmed
utterance, an HTTP 200 execute response whose body is not JSON makes
`response.json()` raise inside the execute tool; the exception escapes
`process_voice_input` before the clearing assignment runs, so the execute
attempt leaves `pending_preview_id` set, and the next `"yes"` invokes the
execute adapter again for the same preview. -/
theorem c1_counterexample :
    (PaymentAgent.process_voice_input ⟨"u", some (.jstr "p")⟩ "yes" ""
        (.httpResponse 200 "oops")).executed = true ∧
    (PaymentAgent.process_voice_input ⟨"u", some (.jstr "p")⟩ "yes" ""
        (.httpResponse 200 "oops")).agent.pending_preview_id = some (.jstr "p") ∧
    (PaymentAgent.process_voice_input ⟨"u", some (.jstr "p")⟩ "yes" ""
        (.httpResponse 200 "oops")).outcome = Except.error "JSONDecodeError" ∧
    ((PaymentAgent.process_voice_input ⟨"u", some (.jstr "p")⟩ "yes" ""
        (.httpResponse 200 "oops")).agent.process_voice_input "yes" ""
        Transport.timedOut).executed = true := by
  set_option maxRecDepth 20000 in exact ⟨rfl, rfl, rfl, rfl⟩

/-- Claim C1 (amended): after an execute attempt triggered by a confirmed
utterance, whenever the execute tool call returns a value — success, an
error (including 409 "already executed"), the ambiguous timeout warning, or
an unparsable string — the session's `pending_preview_id` is cleared to
`None`.  (When the tool raises instead of returning, e.g. on a 2xx response
with a non-JSON body, the exception propagates and the id is not cleared.) -/
theorem c1_execute_return_clears_pending (a : PaymentAgent) (u up : String)
    (t : Transport)
    (hpend : pyTruthy a.pending_preview_id = true)
    (hconf : PaymentAgent.check_confirmation u = .confirmed)
    (hret : ∃ s, PaymentExecuteTool.execute a.user_id (pyStrOpt a.pending_preview_id) t
      = Except.ok s) :
    (a.process_voice_input u up t).agent.pending_preview_id = none ∧
    (a.process_voice_input u up t).executed = true := by
  obtain ⟨s, hs⟩ := hret
  rw [pvi_confirmed_eq a u up t hpend hconf]
  exact execute_pending_clears a t s hpend hs

/-- Witness for C1 (amended) at the 409 "already executed" scenario. -/
theorem c1_execute_return_clears_pending_witness :
    (PaymentAgent.process_voice_input ⟨"u", some (.jstr "p")⟩ "yes" ""
        (.httpResponse 409 "")).agent.pending_preview_id = none ∧
    (PaymentAgent.process_voice_input ⟨"u", some (.jstr "p")⟩ "yes" ""
        (.httpResponse 409 "")).executed = true :=
  c1_execute_return_clears_pending ⟨"u", some (.jstr "p")⟩ "yes" ""
    (.httpResponse 409 "") (by decide) (by decide) ⟨_, rfl⟩

/-- Claim C2: an utterance whose lower-cased, stripped form contains both a
confirm phrase and a cancel phrase classifies as confirmed, because the
confirm phrases are scanned first. -/
theorem c2_confirm_precedes_cancel (u : String)
    (hc : ∃ p ∈ confirm_phrases, pyContains p (pyStrip (pyLower u)) = true)
    (_hk : ∃ p ∈ cancel_phrases, pyContains p (pyStrip (pyLower u)) = true) :
    PaymentAgent.check_confirmation u = .confirmed := by
  obtain ⟨p, hp, hsub⟩ := hc
  have h : confirm_phrases.any (fun q => pyContains q (pyStrip (pyLower u))) = true :=
    List.any_eq_true.mpr ⟨p, hp, hsub⟩
  simp [PaymentAgent.check_confirmation, h]

/-- Witness for C2 on "yes, cancel". -/
theorem c2_confirm_precedes_cancel_witness :
    PaymentAgent.check_confirmation "yes, cancel" = .confirmed :=
  c2_confirm_precedes_cancel "yes, cancel"
    ⟨"yes", by decide, by decide⟩ ⟨"cancel", by decide, by decide⟩

/-- Claim C3: an utterance matching no phrase of either set classifies as
unclear, and with a preview pending `process_voice_input` leaves the session
untouched and asks the caller to repeat, with action
`awaiting_confirmation`. -/
theorem c3_unclear_leaves_state (a : PaymentAgent) (u up : String) (t : Transport)
    (hpend : pyTruthy a.pending_preview_id = true)
    (hc : ∀ p ∈ confirm_phrases, pyContains p (pyStrip (pyLower u)) = false)
    (hk : ∀ p ∈ cancel_phrases, pyContains p (pyStrip (pyLower u)) = false) :
    PaymentAgent.check_confirmation u = .unclear ∧
    a.process_voice_input u up t =
      ⟨a, .ok ⟨some (.jstr ("I didn\x27t catch that. Please say \x27yes\x27 to confirm " ++
          "the payment or \x27no\x27 to cancel.")), "awaiting_confirmation", none⟩,
        false⟩ := by
  have h1 : confirm_phrases.any (fun q => pyContains q (pyStrip (pyLower u))) = false :=
    List.any_eq_false.mpr (fun x hx => by simp [hc x hx])
  have h2 : cancel_phrases.any (fun q => pyContains q (pyStrip (pyLower u))) = false :=
    List.any_eq_false.mpr (fun x hx => by simp [hk x hx])
  have hcl : PaymentAgent.check_confirmation u = .unclear := by
    simp [PaymentAgent.check_confirmation, h1, h2]
  refine ⟨hcl, ?_⟩
  unfold PaymentAgent.process_voice_input
  rw [hpend, hcl]
  rfl

/-- Witness for C3 on "banana". -/
theorem c3_unclear_leaves_state_witness :
    PaymentAgent.check_confirmation "banana" = .unclear ∧
    PaymentAgent.process_voice_input ⟨"u", some (.jstr "p")⟩ "banana" "x"
        Transport.timedOut =
      ⟨⟨"u", some (.jstr "p")⟩,
        .ok ⟨some (.jstr ("I didn\x27t catch that. Please say \x27yes\x27 to confirm " ++
          "the payment or \x27no\x27 to cancel.")), "awaiting_confirmation", none⟩,
        false⟩ :=
  c3_unclear_leaves_state ⟨"u", some (.jstr "p")⟩ "banana" "x" Transport.timedOut
    (by decide) (by decide) (by decide)

/-- Claim C4: with a preview pending, a cancelled classification clears
`pending_preview_id`, returns the cancelled action, and the execute adapter
is not invoked. -/
theorem c4_cancel_clears_without_call (a : PaymentAgent) (u up : String)
    (t : Transport)
    (hpend : pyTruthy a.pending_preview_id = true)
    (hconf : PaymentAgent.check_confirmation u = .cancelled) :
    a.process_voice_input u up t =
      ⟨{ a with pending_preview_id := none },
        .ok ⟨some (.jstr "Payment cancelled. Is there anything else I can help you with?"),
          "cancelled", none⟩, false⟩ := by
  unfold PaymentAgent.process_voice_input
  rw [hpend, hconf]
  rfl

/-- Witness for C4 on "no". -/
theorem c4_cancel_clears_without_call_witness :
    PaymentAgent.process_voice_input ⟨"u", some (.jstr "p")⟩ "no" "x"
        Transport.timedOut =
      ⟨⟨"u", none⟩,
        .ok ⟨some (.jstr "Payment cancelled. Is there anything else I can help you with?"),
          "cancelled", none⟩, false⟩ :=
  c4_cancel_clears_without_call ⟨"u", some (.jstr "p")⟩ "no" "x" Transport.timedOut
    (by decide) (by decide)

/-- With no truthy pending id, `_execute_pending_payment` is the guarded
"no pending payment" result and makes no adapter call. -/
theorem epp_idle_guard (a : PaymentAgent) (t : Transport)
    (hidle : pyTruthy a.pending_preview_id = false) :
    a.execute_pending_payment t =
      ⟨a, .ok ⟨some (.jstr "No pending payment to execute."), "error", none⟩,
        false⟩ := by
  unfold PaymentAgent.execute_pending_payment
  rw [hidle]
  rfl

/-- Characterization of the new-intent branch when the extracted preview id
is not truthy: the state never changes, the upstream text is echoed, and the
action is `preview` or `info` according to the marker scan. -/
theorem pvi_idle_no_store (a : PaymentAgent) (u up : String) (t : Transport)
    (hidle : pyTruthy a.pending_preview_id = false)
    (hnostore : pyTruthy (PaymentAgent.extract_preview_id up) = false) :
    a.process_voice_input u up t =
      if (pyContains "awaiting_confirmation" (pyLower up) ||
          pyContains "confirm" (pyLower up)) then
        ⟨a, .ok ⟨some (.jstr up), "preview",
          some (.previewD (PaymentAgent.extract_preview_id up))⟩, false⟩
      else
        ⟨a, .ok ⟨some (.jstr up), "info", none⟩, false⟩ := by
  unfold PaymentAgent.process_voice_input
  rw [hidle]
  simp only [Bool.false_eq_true, if_false]
  by_cases hm : (pyContains "awaiting_confirmation" (pyLower up) ||
      pyContains "confirm" (pyLower up)) = true
  · simp [hm, hnostore]
  · simp only [Bool.not_eq_true] at hm
    simp [hm]

/-- Claim C5, counterexample.  With no preview pending, the confirmed
utterance "yes" is forwarded upstream as a new intent: the result echoes the
upstream reply with action `info`, which is not the "no pending payment"
response the claim requires. -/
theorem c5_counterexample :
    PaymentAgent.process_voice_input ⟨"u", none⟩ "yes" "Hello!" Transport.timedOut =
      ⟨⟨"u", none⟩, .ok ⟨some (.jstr "Hello!"), "info", none⟩, false⟩ ∧
    (JVal.jstr "Hello!") ≠ (JVal.jstr "No pending payment to execute.") := by
  refine ⟨rfl, ?_⟩
  intro h
  rw [JVal.jstr.injEq] at h
  exact absurd h (by decide)

/-- Claim C5 (amended): with no preview pending, a confirmed utterance is
treated as a new intent, not a confirmation: `process_voice_input` echoes
the upstream response, leaves the session unchanged, never invokes the
execute adapter, and repeating the call gives the same result; the
"no pending payment" reply is produced only by the internal
`_execute_pending_payment` guard, which the public surface cannot reach in
this state. -/
theorem c5_idle_confirmed_is_new_intent (a : PaymentAgent) (u up : String)
    (t t2 : Transport)
    (hidle : pyTruthy a.pending_preview_id = false)
    (_hconf : PaymentAgent.check_confirmation u = .confirmed)
    (hnostore : pyTruthy (PaymentAgent.extract_preview_id up) = false) :
    (a.process_voice_input u up t).executed = false ∧
    (a.process_voice_input u up t).agent = a ∧
    (∃ r, (a.process_voice_input u up t).outcome = Except.ok r ∧
      r.response = some (.jstr up)) ∧
    (a.process_voice_input u up t).agent.process_voice_input u up t2 =
      a.process_voice_input u up t2 ∧
    (a.execute_pending_payment t).outcome =
      Except.ok ⟨some (.jstr "No pending payment to execute."), "error", none⟩ ∧
    (a.execute_pending_payment t).executed = false := by
  have hch := pvi_idle_no_store a u up t hidle hnostore
  have hgd := epp_idle_guard a t hidle
  refine ⟨idle_never_executes a u up t hidle, ?_, ?_, ?_, ?_, ?_⟩
  · rw [hch]; split <;> rfl
  · rw [hch]; split
    · exact ⟨_, rfl, rfl⟩
    · exact ⟨_, rfl, rfl⟩
  · have hag : (a.process_voice_input u up t).agent = a := by
      rw [hch]; split <;> rfl
    rw [hag]
  · rw [hgd]
  · rw [hgd]

/-- Witness for C5 (amended). -/
theorem c5_idle_confirmed_is_new_intent_witness :
    (PaymentAgent.process_voice_input ⟨"u", none⟩ "yes" "Hello!"
      Transport.timedOut).executed = false ∧
    (PaymentAgent.process_voice_input ⟨"u", none⟩ "yes" "Hello!"
      Transport.timedOut).agent = ⟨"u", none⟩ ∧
    (∃ r, (PaymentAgent.process_voice_input ⟨"u", none⟩ "yes" "Hello!"
        Transport.timedOut).outcome = Except.ok r ∧
      r.response = some (.jstr "Hello!")) ∧
    (PaymentAgent.process_voice_input ⟨"u", none⟩ "yes" "Hello!"
        Transport.timedOut).agent.process_voice_input "yes" "Hello!"
        Transport.timedOut =
      PaymentAgent.process_voice_input ⟨"u", none⟩ "yes" "Hello!"
        Transport.timedOut ∧
    (PaymentAgent.execute_pending_payment ⟨"u", none⟩ Transport.timedOut).outcome =
      Except.ok ⟨some (.jstr "No pending payment to execute."), "error", none⟩ ∧
    (PaymentAgent.execute_pending_payment ⟨"u", none⟩ Transport.timedOut).executed =
      false :=
  c5_idle_confirmed_is_new_intent ⟨"u", none⟩ "yes" "Hello!"
    Transport.timedOut Transport.timedOut (by decide) (by decide) (by decide)

/-- Claim C6: when the session is idle and the upstream response carries the
preview marker, a truthy extracted preview id is recorded and returned with
action `preview`. -/
theorem c6_preview_marker_records_id (a : PaymentAgent) (u up : String)
    (t : Transport) (v : JVal)
    (hidle : pyTruthy a.pending_preview_id = false)
    (hmark : (pyContains "awaiting_confirmation" (pyLower up) ||
      pyContains "confirm" (pyLower up)) = true)
    (hext : PaymentAgent.extract_preview_id up = some v)
    (htr : jvalTruthy v = true) :
    a.process_voice_input u up t =
      ⟨{ a with pending_preview_id := some v },
        .ok ⟨some (.jstr up), "preview", some (.previewD (some v))⟩, false⟩ := by
  unfold PaymentAgent.process_voice_input
  rw [hidle]
  simp only [Bool.false_eq_true, if_false]
  simp [hmark, hext, pyTruthy, htr]

/-- Witness for C6: a confirm-marker response carrying an embedded JSON
`preview_id` field. -/
theorem c6_preview_marker_records_id_witness :
    PaymentAgent.process_voice_input ⟨"u", none⟩ "x"
        "Please confirm the payment. \x7b\"preview_id\": \"abc123\"\x7d"
        Transport.timedOut =
      ⟨⟨"u", some (.jstr "abc123")⟩,
        .ok ⟨some (.jstr "Please confirm the payment. \x7b\"preview_id\": \"abc123\"\x7d"),
          "preview", some (.previewD (some (.jstr "abc123")))⟩, false⟩ :=
  c6_preview_marker_records_id ⟨"u", none⟩ "x"
    "Please confirm the payment. \x7b\"preview_id\": \"abc123\"\x7d"
    Transport.timedOut (.jstr "abc123") (by decide) (by decide) rfl rfl

/-- Claim C10: when the session is idle and the upstream response carries the
preview marker but no extractable preview id, the result still has action
`preview` with a `None` preview id in its data, the session stays idle, and
a following "yes" cannot trigger an execution. -/
theorem c10_marker_without_id_stays_idle (a : PaymentAgent) (u up up2 : String)
    (t t2 : Transport)
    (hidle : pyTruthy a.pending_preview_id = false)
    (hmark : (pyContains "awaiting_confirmation" (pyLower up) ||
      pyContains "confirm" (pyLower up)) = true)
    (hext : PaymentAgent.extract_preview_id up = none) :
    a.process_voice_input u up t =
      ⟨a, .ok ⟨some (.jstr up), "preview", some (.previewD none)⟩, false⟩ ∧
    ((a.process_voice_input u up t).agent.process_voice_input "yes" up2 t2).executed =
      false := by
  have h1 : a.process_voice_input u up t =
      ⟨a, .ok ⟨some (.jstr up), "preview", some (.previewD none)⟩, false⟩ := by
    have := pvi_idle_no_store a u up t hidle (by rw [hext]; rfl)
    rw [hmark] at this
    simpa [hext] using this
  refine ⟨h1, ?_⟩
  rw [h1]
  exact idle_never_executes a "yes" up2 t2 hidle

/-- Witness for C10: a confirm-marker response with no UUID and no embedded
JSON fragment. -/
theorem c10_marker_without_id_stays_idle_witness :
    PaymentAgent.process_voice_input ⟨"u", none⟩ "x" "Please confirm"
        Transport.timedOut =
      ⟨⟨"u", none⟩, .ok ⟨some (.jstr "Please confirm"), "preview",
        some (.previewD none)⟩, false⟩ ∧
    ((PaymentAgent.process_voice_input ⟨"u", none⟩ "x" "Please confirm"
        Transport.timedOut).agent.process_voice_input "yes" "ok"
        Transport.timedOut).executed = false :=
  c10_marker_without_id_stays_idle ⟨"u", none⟩ "x" "Please confirm" "ok"
    Transport.timedOut Transport.timedOut (by decide) (by decide) rfl

/-- Claim C7: tag normalization strips the leading "@" and lower-cases, so
"@Alice" and "alice" share the canonical tag "@alice", query the same
backend path, and get identical results on every transport outcome. -/
theorem c7_tag_normalization_round_trip :
    TagResolverTool.clean_tag "@Alice" = "alice" ∧
    TagResolverTool.clean_tag "alice" = "alice" ∧
    TagResolverTool.requestPath "@Alice" = some "/api/v1/users/tag/alice" ∧
    TagResolverTool.requestPath "alice" = some "/api/v1/users/tag/alice" ∧
    (∀ t : Transport,
      TagResolverTool.execute "@Alice" t = TagResolverTool.execute "alice" t) ∧
    TagResolverTool.execute "@Alice"
        (.httpResponse 200 "\x7b\"wallet_address\": \"0xabc\"\x7d") =
      Except.ok
        "\x7b\"tag\": \"@alice\", \"address\": \"0xabc\", \"display_name\": \"alice\"\x7d" := by
  refine ⟨rfl, rfl, rfl, rfl, ?_, rfl⟩
  intro t
  unfold TagResolverTool.execute
  rw [show TagResolverTool.clean_tag "@Alice" = TagResolverTool.clean_tag "alice" from rfl]

/-- Claim C8, counterexample.  429 and 402 are listed as known codes, but the
execute operation maps both to its generic error string carrying the numeric
code, not to the rate-limited / payment-required domain messages. -/
theorem c8_counterexample :
    PaymentExecuteTool.execute "u" "p" (.httpResponse 429 "") =
      Except.ok "\x7b\"error\": \"Payment failed: 429\"\x7d" ∧
    PaymentExecuteTool.execute "u" "p" (.httpResponse 402 "") =
      Except.ok "\x7b\"error\": \"Payment failed: 402\"\x7d" ∧
    "\x7b\"error\": \"Payment failed: 429\"\x7d" ≠
      "\x7b\"error\": \"Rate limited. Please try again in a few minutes.\"\x7d" := by
  refine ⟨rfl, rfl, ?_⟩
  decide

/-- Claim C8 (amended): each adapter maps the non-2xx codes it knows to its
domain-specific message (execute: 404 not found, 403 insufficient/not
confirmed, 409 already executed; video: 402 payment required, 403
insufficient, 429 rate limited; tag: 404 not found), and every other status
code outside that adapter's handled set yields a generic error string
carrying the numeric status code. -/
theorem c8_per_adapter_status_mapping :
    (∀ uid pid b, PaymentExecuteTool.execute uid pid (.httpResponse 404 b) =
      Except.ok "\x7b\"error\": \"Payment preview expired or not found. Please start a new payment.\"\x7d") ∧
    (∀ uid pid b, PaymentExecuteTool.execute uid pid (.httpResponse 403 b) =
      Except.ok "\x7b\"error\": \"Insufficient balance or payment not confirmed\"\x7d") ∧
    (∀ uid pid b, PaymentExecuteTool.execute uid pid (.httpResponse 409 b) =
      Except.ok "\x7b\"error\": \"Payment already executed\"\x7d") ∧
    (∀ uid pid b (s : Nat), s ∉ ([200, 404, 403, 409] : List Nat) →
      PaymentExecuteTool.execute uid pid (.httpResponse s b) =
        Except.ok ("\x7b\"error\": \"Payment failed: " ++ toString s ++ "\"\x7d")) ∧
    (∀ uid pr d st cr b, VideoGenerationTool.execute uid pr d st cr (.httpResponse 402 b) =
      Except.ok ("\x7b\"error\": \"Payment required\", \"cost_usdc\": " ++ cr ++
        ", \"message\": \"Video generation requires payment. " ++
        "Please ensure you have sufficient balance.\"\x7d")) ∧
    (∀ uid pr d st cr b, VideoGenerationTool.execute uid pr d st cr (.httpResponse 403 b) =
      Except.ok "\x7b\"error\": \"Insufficient GAS balance for video generation\"\x7d") ∧
    (∀ uid pr d st cr b, VideoGenerationTool.execute uid pr d st cr (.httpResponse 429 b) =
      Except.ok "\x7b\"error\": \"Rate limited. Please try again in a few minutes.\"\x7d") ∧
    (∀ uid pr d st cr b (s : Nat), s ∉ ([200, 402, 403, 429] : List Nat) →
      VideoGenerationTool.execute uid pr d st cr (.httpResponse s b) =
        Except.ok ("\x7b\"error\": \"Video generation failed: " ++ toString s ++ "\"\x7d")) ∧
    (∀ tag b, (TagResolverTool.clean_tag tag).data.isEmpty = false →
      TagResolverTool.execute tag (.httpResponse 404 b) =
        Except.ok ("\x7b\"error\": \"Tag @" ++ TagResolverTool.clean_tag tag ++
          " not found. Please check the spelling.\"\x7d")) ∧
    (∀ tag b (s : Nat), (TagResolverTool.clean_tag tag).data.isEmpty = false →
      s ∉ ([200, 404] : List Nat) →
      TagResolverTool.execute tag (.httpResponse s b) =
        Except.ok ("\x7b\"error\": \"Failed to resolve tag: " ++ toString s ++ "\"\x7d")) := by
  refine ⟨fun uid pid b => rfl, fun uid pid b => rfl, fun uid pid b => rfl,
    ?_, fun uid pr d st cr b => rfl, fun uid pr d st cr b => rfl,
    fun uid pr d st cr b => rfl, ?_, ?_, ?_⟩
  · intro uid pid b s hs
    simp only [List.mem_cons, List.not_mem_nil, or_false, not_or] at hs
    obtain ⟨h1, h2, h3, h4⟩ := hs
    simp [PaymentExecuteTool.execute, h1, h2, h3, h4]
  · intro uid pr d st cr b s hs
    simp only [List.mem_cons, List.not_mem_nil, or_false, not_or] at hs
    obtain ⟨h1, h2, h3, h4⟩ := hs
    simp [VideoGenerationTool.execute, h1, h2, h3, h4]
  · intro tag b hne
    unfold TagResolverTool.execute
    simp [hne]
  · intro tag b s hne hs
    simp only [List.mem_cons, List.not_mem_nil, or_false, not_or] at hs
    obtain ⟨h1, h2⟩ := hs
    unfold TagResolverTool.execute
    simp [hne, h1, h2]

/-- Witness for C8 (amended): the generic fallbacks at status 500 and the
404 branch for "@alice". -/
theorem c8_per_adapter_status_mapping_witness :
    PaymentExecuteTool.execute "u" "p" (.httpResponse 500 "") =
      Except.ok "\x7b\"error\": \"Payment failed: 500\"\x7d" ∧
    VideoGenerationTool.execute "u" "a cat" 10 "anime" "1.0" (.httpResponse 500 "") =
      Except.ok "\x7b\"error\": \"Video generation failed: 500\"\x7d" ∧
    TagResolverTool.execute "@alice" (.httpResponse 404 "") =
      Except.ok "\x7b\"error\": \"Tag @alice not found. Please check the spelling.\"\x7d" ∧
    TagResolverTool.execute "@alice" (.httpResponse 500 "") =
      Except.ok "\x7b\"error\": \"Failed to resolve tag: 500\"\x7d" := by
  obtain ⟨-, -, -, hA, -, -, -, hB, hC, hD⟩ := c8_per_adapter_status_mapping
  exact ⟨hA "u" "p" "" 500 (by decide),
    hB "u" "a cat" 10 "anime" "1.0" "" 500 (by decide),
    hC "@alice" "" (by decide),
    hD "@alice" "" 500 (by decide) (by decide)⟩

/-- Claim C9, evaluation at the failing inputs (code bug).  A 2xx response
whose body is not a JSON object makes `response.json()` (or the `[:16]`
slice of a missing `tx_hash`) raise past the adapter boundary, while the
transport-failure paths do return the distinguishable results the claim
describes. -/
theorem c9_failing_input_eval :
    BalanceCheckTool.execute "u" (.httpResponse 200 "not json") =
      Except.error "JSONDecodeError" ∧
    PaymentExecuteTool.execute "u" "p" (.httpResponse 200 "\x7b\x7d") =
      Except.error "TypeError" ∧
    BalanceCheckTool.execute "u" Transport.timedOut =
      Except.ok "\x7b\"error\": \"Balance check timed out. The blockchain may be slow.\"\x7d" ∧
    BalanceCheckTool.execute "u" (.requestError "boom") =
      Except.ok "\x7b\"error\": \"Network error: boom\"\x7d" ∧
    PaymentExecuteTool.execute "u" "p" Transport.timedOut =
      Except.ok ("\x7b\"warning\": \"Transaction may still be processing\", " ++
        "\"message\": \"The payment was submitted but confirmation timed out. " ++
        "Please check your transaction history.\"\x7d") :=
  ⟨rfl, rfl, rfl, rfl, rfl⟩
